import Mathlib

/-!
# Verification of the backend bootstrap-and-serve core

Shallow embedding of the Node.js/Express backend (`backend/src/server.js`):
dependency acquisition with retry (`connectToDatabaseWithRetry`,
`connectToRedisWithRetry`, `initializeConnections`), the request handlers
(`GET /ready`, `GET /api/health`, `GET /api/users`) and the SIGTERM shutdown
handler.

Modelling conventions:
* Each connection attempt's outcome is an oracle `probe : Nat → Bool`
  (`probe i` = the `i`-th attempt's round-trip check succeeds) and each failed
  attempt `i` carries the error message `errOf i`.
* The PostgreSQL pool visible to the handlers is a `PoolConn` recording the
  outcome of `pool.query('SELECT 1')` (the probe), of
  `pool.query('SELECT * FROM users ORDER BY id')`, and of `pool.end()`.
* The Redis client is a `RedisState`: the `isOpen` flag, the key/value store
  with absolute expiry times (`SETEX key ttl v` at time `now` stores expiry
  `now + ttl`; `GET` at time `now` sees only entries with `now < expiry`,
  matching Redis expiration), plus error-injection flags for each operation,
  so that `get`/`setEx`/`ping`/`quit` failures can be analysed.
  `JSON.stringify`/`JSON.parse` round-tripping is modelled as the identity:
  the cache stores row lists directly.
* Handlers return their HTTP response together with an observation trace:
  whether the store was queried, which cache calls were issued, the cache
  state afterwards, and (for shutdown) the order of release calls and the
  exit code reached. Times and durations are not modelled beyond expiry.
-/

/-- Outcome of `connectToDatabaseWithRetry`: either a connected pool or the
thrown error, together with how many connection attempts were made and how
many `retryDelay` waits occurred. -/
inductive DbAcq where
  | connected (attempts : Nat) (waits : Nat)
  | fatal (lastError : Option String) (attempts : Nat) (waits : Nat)
deriving DecidableEq, Repr

/-- The body of `connectToDatabaseWithRetry`'s `for` loop
(`for (let attempt = 1; attempt <= maxRetries; attempt++)`), driven by the
number of remaining iterations (`remaining = maxRetries + 1 - attempt`).
On a failed attempt the loop waits `retryDelay` only while
`attempt < maxRetries`, records the error as `lastError`, and continues; on
exhaustion it throws an error carrying `lastError`. -/
def dbRetryLoop (probe : Nat → Bool) (errOf : Nat → String) (maxRetries : Nat) :
    Nat → Nat → Nat → Nat → Option String → DbAcq
  | 0, _, attemptsMade, waitsMade, lastError => .fatal lastError attemptsMade waitsMade
  | remaining + 1, attempt, attemptsMade, waitsMade, _lastError =>
    if probe attempt then .connected (attemptsMade + 1) waitsMade
    else
      dbRetryLoop probe errOf maxRetries remaining (attempt + 1) (attemptsMade + 1)
        (if attempt < maxRetries then waitsMade + 1 else waitsMade)
        (some (errOf attempt))

/-- Model of `connectToDatabaseWithRetry`: attempts 1..maxRetries, starting with no
recorded error. The unused `lastError` slot at entry models the JS
`let lastError;`. -/
def connectToDatabaseWithRetry (probe : Nat → Bool) (errOf : Nat → String)
    (maxRetries : Nat) : DbAcq :=
  dbRetryLoop probe errOf maxRetries maxRetries 1 0 0 none

/-- Outcome of `connectToRedisWithRetry`: `client = some ()` when connected,
`none` when the function falls through all attempts and returns `null`.
`attempts` counts connection attempts made. There is no error constructor:
the function never throws. -/
structure RedisAcq where
  client : Option Unit
  attempts : Nat
deriving DecidableEq, Repr

/-- The body of `connectToRedisWithRetry`'s `for` loop, driven by the number
of remaining iterations. Falling through the loop returns `null` (here
`client := none`) instead of throwing. -/
def redisRetryLoop (probe : Nat → Bool) : Nat → Nat → Nat → RedisAcq
  | 0, _, attemptsMade => { client := none, attempts := attemptsMade }
  | remaining + 1, attempt, attemptsMade =>
    if probe attempt then { client := some (), attempts := attemptsMade + 1 }
    else redisRetryLoop probe remaining (attempt + 1) (attemptsMade + 1)

/-- Model of `connectToRedisWithRetry`: `maxRetries` is hardcoded to 3 in the source. -/
def connectToRedisWithRetry (probe : Nat → Bool) : RedisAcq :=
  redisRetryLoop probe 3 1 0

instance {ε α : Type} [DecidableEq ε] [DecidableEq α] : DecidableEq (Except ε α) := fun
  | .ok a, .ok b =>
    if h : a = b then .isTrue (by rw [h]) else .isFalse (fun hab => h (Except.ok.inj hab))
  | .ok _, .error _ => .isFalse (fun hab => Except.noConfusion hab)
  | .error _, .ok _ => .isFalse (fun hab => Except.noConfusion hab)
  | .error e, .error f =>
    if h : e = f then .isTrue (by rw [h]) else .isFalse (fun hef => h (Except.error.inj hef))

/-- The PostgreSQL pool as the request handlers and the shutdown handler see
it: outcomes of `pool.query('SELECT 1')` (used by the readiness and detailed
health probes), of `pool.query('SELECT * FROM users ORDER BY id')` (used by
`GET /api/users`), and whether `pool.end()` rejects. -/
structure PoolConn where
  selectOne : Except String Unit
  selectUsers : Except String (List String)
  failEnd : Bool
deriving DecidableEq, Repr

/-- The Redis client as the handlers see it: the `isOpen` flag, the stored
entries (key, value, absolute expiry), and error injection per operation. -/
structure RedisState where
  isOpen : Bool
  entries : List (String × List String × Nat)
  failGet : Bool
  getErr : String
  failSet : Bool
  setErr : String
  failPing : Bool
  pingErr : String
  failQuit : Bool
deriving DecidableEq, Repr

/-- Value visible to `GET key` at time `now`: the most recently stored entry
for `key`, provided it has not expired (Redis drops expired keys). -/
def redisLookup (entries : List (String × List String × Nat)) (key : String)
    (now : Nat) : Option (List String) :=
  match entries.find? (fun e => e.1 == key) with
  | some (_, v, exp) => if now < exp then some v else none
  | none => none

/-- Model of `redisClient.get(key)`: throws when the injected get failure is set,
otherwise returns the unexpired value or `null`. -/
def redisGet (r : RedisState) (key : String) (now : Nat) :
    Except String (Option (List String)) :=
  if r.failGet then .error r.getErr else .ok (redisLookup r.entries key now)

/-- Model of `redisClient.setEx(key, ttl, v)`: throws when the injected set failure is
set, otherwise stores `v` under `key` with expiry `now + ttl`. -/
def redisSetEx (r : RedisState) (key : String) (ttl : Nat) (v : List String)
    (now : Nat) : Except String RedisState :=
  if r.failSet then .error r.setErr
  else .ok { r with entries := (key, v, now + ttl) :: r.entries }

/-- Model of `redisClient.ping()`: throws when the injected ping failure is set. -/
def redisPing (r : RedisState) : Except String Unit :=
  if r.failPing then .error r.pingErr else .ok ()

/-- A cache call issued by a handler. -/
inductive CacheOp where
  | get
  | setEx
  | ping
deriving DecidableEq, Repr

/-- Per-dependency detail recorded in a health/readiness response body. -/
inductive DepCheck where
  | connected
  | notInitialized
  | notAvailable
  | errorWith (msg : String)
deriving DecidableEq, Repr

/-- Response of `GET /ready`. -/
structure ReadyResponse where
  status : String
  statusCode : Nat
  database : DepCheck
  redis : DepCheck
  cacheOps : List CacheOp
deriving DecidableEq, Repr

/-- The `GET /ready` handler. The database block sets `NOT_READY` when the
pool is missing or `SELECT 1` throws; the Redis block only records detail,
never touching the verdict, and pings only when `redisClient && redisClient.isOpen`. -/
def readyHandler (pool : Option PoolConn) (redisClient : Option RedisState) :
    ReadyResponse :=
  let dbPart : DepCheck × String :=
    match pool with
    | some p =>
      match p.selectOne with
      | .ok _ => (.connected, "READY")
      | .error e => (.errorWith e, "NOT_READY")
    | none => (.notInitialized, "NOT_READY")
  let redisPart : DepCheck × List CacheOp :=
    match redisClient with
    | some r =>
      if r.isOpen then
        match redisPing r with
        | .ok _ => (.connected, [.ping])
        | .error e => (.errorWith e, [.ping])
      else (.notAvailable, [])
    | none => (.notAvailable, [])
  { status := dbPart.2
    statusCode := if dbPart.2 = "READY" then 200 else 503
    database := dbPart.1
    redis := redisPart.1
    cacheOps := redisPart.2 }

/-- Response of `GET /api/health`. `res.json(...)` without an explicit status
always answers 200 at the transport layer; the verdict lives in the body. -/
structure ApiHealthResponse where
  statusCode : Nat
  status : String
  database : DepCheck
  redis : DepCheck
  cacheOps : List CacheOp
deriving DecidableEq, Repr

/-- The `GET /api/health` handler: same checks as `/ready` with body strings
`OK`/`Error`, but the transport status is the `res.json` default 200. -/
def apiHealthHandler (pool : Option PoolConn) (redisClient : Option RedisState) :
    ApiHealthResponse :=
  let dbPart : DepCheck × String :=
    match pool with
    | some p =>
      match p.selectOne with
      | .ok _ => (.connected, "OK")
      | .error e => (.errorWith e, "Error")
    | none => (.notInitialized, "Error")
  let redisPart : DepCheck × List CacheOp :=
    match redisClient with
    | some r =>
      if r.isOpen then
        match redisPing r with
        | .ok _ => (.connected, [.ping])
        | .error e => (.errorWith e, [.ping])
      else (.notAvailable, [])
    | none => (.notAvailable, [])
  { statusCode := 200
    status := dbPart.2
    database := dbPart.1
    redis := redisPart.1
    cacheOps := redisPart.2 }

/-- Body of a `GET /api/users` response: a row array or an error message. -/
inductive ApiUsersBody where
  | rows (rs : List String)
  | errorMsg (s : String)
deriving DecidableEq, Repr

/-- Result of one `GET /api/users` request, with its observation trace. -/
structure ApiUsersResult where
  status : Nat
  body : ApiUsersBody
  storeQueried : Bool
  cacheOps : List CacheOp
  redisAfter : Option RedisState
deriving DecidableEq, Repr

/-- The cache-read step of `GET /api/users`: guarded by
`redisClient && redisClient.isOpen`; a `get` error is swallowed by the inner
`catch` and treated as a miss. Returns the hit value (if any) and the cache
calls made. -/
def cacheReadPhase (redisClient : Option RedisState) (key : String) (now : Nat) :
    Option (List String) × List CacheOp :=
  match redisClient with
  | some r =>
    if r.isOpen then
      match redisGet r key now with
      | .error _ => (none, [.get])
      | .ok v => (v, [.get])
    else (none, [])
  | none => (none, [])

/-- The cache-populate step of `GET /api/users` after a store read: guarded by
`redisClient && redisClient.isOpen`; a `setEx` error is swallowed by its
`catch`, leaving the cache unchanged. Returns the cache state afterwards and
the cache calls made. -/
def cachePopulatePhase (redisClient : Option RedisState) (key : String)
    (rows : List String) (now : Nat) : Option RedisState × List CacheOp :=
  match redisClient with
  | some r =>
    if r.isOpen then
      match redisSetEx r key 300 rows now with
      | .error _ => (some r, [.setEx])
      | .ok r2 => (some r2, [.setEx])
    else (some r, [])
  | none => (none, [])

/-- The `GET /api/users` handler: 503 when the pool was never established;
cache-aside read of `users:all`; on a miss, query the store — the outer
`catch` turns a store error into a 500 with the generic message; on store
success, populate the cache with TTL 300 and answer 200 with the rows. -/
def getUsers (pool : Option PoolConn) (redisClient : Option RedisState)
    (now : Nat) : ApiUsersResult :=
  match pool with
  | none =>
    { status := 503, body := .errorMsg "Database not available"
      storeQueried := false, cacheOps := [], redisAfter := redisClient }
  | some p =>
    match cacheReadPhase redisClient "users:all" now with
    | (some v, ops) =>
      { status := 200, body := .rows v, storeQueried := false
        cacheOps := ops, redisAfter := redisClient }
    | (none, ops) =>
      match p.selectUsers with
      | .error _ =>
        { status := 500, body := .errorMsg "Internal server error"
          storeQueried := true, cacheOps := ops, redisAfter := redisClient }
      | .ok rows =>
        let pop := cachePopulatePhase redisClient "users:all" rows now
        { status := 200, body := .rows rows, storeQueried := true
          cacheOps := ops ++ pop.2, redisAfter := pop.1 }

/-- A release call made by the SIGTERM handler. -/
inductive ReleaseOp where
  | poolEnd
  | redisQuit
deriving DecidableEq, Repr

/-- Trace of the SIGTERM handler: release calls in order, and the exit code
reached (`none` when an awaited release rejected, so `process.exit(0)` was
never executed). -/
structure ShutdownTrace where
  releases : List ReleaseOp
  exit : Option Nat
deriving DecidableEq, Repr

/-- The `process.on('SIGTERM')` handler: `await pool.end()` when the pool
exists, then `await redisClient.quit()` when the client exists and is open,
then `process.exit(0)`. The awaits are not wrapped in try/catch: a rejecting
release aborts the handler before the exit call. -/
def sigtermHandler (pool : Option PoolConn) (redisClient : Option RedisState) :
    ShutdownTrace :=
  match pool with
  | some p =>
    if p.failEnd then { releases := [.poolEnd], exit := none }
    else
      match redisClient with
      | some r =>
        if r.isOpen then
          if r.failQuit then { releases := [.poolEnd, .redisQuit], exit := none }
          else { releases := [.poolEnd, .redisQuit], exit := some 0 }
        else { releases := [.poolEnd], exit := some 0 }
      | none => { releases := [.poolEnd], exit := some 0 }
  | none =>
    match redisClient with
    | some r =>
      if r.isOpen then
        if r.failQuit then { releases := [.redisQuit], exit := none }
        else { releases := [.redisQuit], exit := some 0 }
      else { releases := [], exit := some 0 }
    | none => { releases := [], exit := some 0 }

/-- Outcome of the startup sequence `initializeConnections().then(() =>
app.listen(...))`: `initializeConnections` catches the database retry
failure and calls `process.exit(1)`, so the `then` continuation (opening the
listener) runs only when the required acquisition succeeded; Redis
acquisition never throws. -/
structure StartupOutcome where
  exitCode : Option Nat
  listenerOpened : Bool
  serving : Bool
  redisConnected : Bool
deriving DecidableEq, Repr

/-- The startup sequence (`initializeConnections` plus the final
`.then(() => app.listen(...))`). -/
def startServer (dbProbe : Nat → Bool) (errOf : Nat → String) (maxRetries : Nat)
    (redisProbe : Nat → Bool) : StartupOutcome :=
  match connectToDatabaseWithRetry dbProbe errOf maxRetries with
  | .fatal _ _ _ =>
    { exitCode := some 1, listenerOpened := false, serving := false
      redisConnected := false }
  | .connected _ _ =>
    { exitCode := none, listenerOpened := true, serving := true
      redisConnected := (connectToRedisWithRetry redisProbe).client.isSome }

/-! ## Lemmas about the database retry loop -/

/-- If the first successful attempt in the window is `k`, the loop returns
`connected`, having added `k - a + 1` attempts and `k - a` waits. -/
lemma dbRetryLoop_connected (probe : Nat → Bool) (errOf : Nat → String) (N : Nat) :
    ∀ (len a am wm : Nat) (le : Option String) (k : Nat),
      a + len = N + 1 → a ≤ k → k ≤ N → probe k = true →
      (∀ i, a ≤ i → i < k → probe i = false) →
      dbRetryLoop probe errOf N len a am wm le =
        .connected (am + (k - a) + 1) (wm + (k - a)) := by
  intro len
  induction len with
  | zero =>
    intro a am wm le k hlen hak hkN _ _
    omega
  | succ n ih =>
    intro a am wm le k hlen hak hkN hk hfail
    by_cases hpa : probe a = true
    · have hka : a = k := by
        by_contra hne
        have hlt : a < k := lt_of_le_of_ne hak hne
        have := hfail a le_rfl hlt
        rw [hpa] at this
        exact Bool.noConfusion this
      subst hka
      simp [dbRetryLoop, hpa]
    · have hpa' : probe a = false := by
        cases h : probe a with
        | true => exact absurd h hpa
        | false => rfl
      have hlt : a < k := by
        rcases Nat.lt_or_ge a k with h | h
        · exact h
        · have : a = k := le_antisymm hak h
          rw [this] at hpa'
          rw [hk] at hpa'
          exact Bool.noConfusion hpa'
      have haN : a < N := lt_of_lt_of_le hlt hkN
      simp only [dbRetryLoop, hpa', Bool.false_eq_true, if_false, if_pos haN]
      rw [ih (a + 1) (am + 1) (wm + 1) (some (errOf a)) k (by omega) (by omega) hkN hk
        (fun i h1 h2 => hfail i (by omega) h2)]
      congr 1 <;> omega

/-- If every attempt in the window fails, the loop exhausts it and returns
`fatal` carrying the error of attempt `N`, having added `len` attempts and
`len - 1` waits (no wait after the final attempt). -/
lemma dbRetryLoop_fatal (probe : Nat → Bool) (errOf : Nat → String) (N : Nat) :
    ∀ (len a am wm : Nat) (le : Option String),
      a + len = N + 1 → 1 ≤ len →
      (∀ i, a ≤ i → i ≤ N → probe i = false) →
      dbRetryLoop probe errOf N len a am wm le =
        .fatal (some (errOf N)) (am + len) (wm + (len - 1)) := by
  intro len
  induction len with
  | zero =>
    intro a am wm le _ h1 _
    omega
  | succ n ih =>
    intro a am wm le hlen _ hfail
    have hpa : probe a = false := hfail a le_rfl (by omega)
    rcases Nat.eq_zero_or_pos n with hn | hn
    · subst hn
      have haN : a = N := by omega
      simp only [dbRetryLoop, hpa, Bool.false_eq_true, if_false, if_neg (by omega : ¬ a < N)]
      rw [haN]
      congr 1
    · have haN : a < N := by omega
      simp only [dbRetryLoop, hpa, Bool.false_eq_true, if_false, if_pos haN]
      rw [ih (a + 1) (am + 1) (wm + 1) (some (errOf a)) (by omega) hn
        (fun i h1 h2 => hfail i (by omega) h2)]
      congr 1 <;> omega

/-- C1: for every configured `maxRetries = N`, if the probe succeeds first on
attempt `k ≤ N`, `connectToDatabaseWithRetry` returns a connected handle
after exactly `k` attempts and `k - 1` retry-delay waits; if the probe fails
on all `N` attempts, it throws an error carrying the last underlying error
(that of attempt `N`) after exactly `N` attempts and `N - 1` waits — no wait
follows the final attempt. -/
theorem connectToDatabaseWithRetry_spec (probe : Nat → Bool) (errOf : Nat → String)
    (N : Nat) :
    (∀ k, 1 ≤ k → k ≤ N → probe k = true →
      (∀ i, 1 ≤ i → i < k → probe i = false) →
      connectToDatabaseWithRetry probe errOf N = .connected k (k - 1)) ∧
    (1 ≤ N → (∀ i, 1 ≤ i → i ≤ N → probe i = false) →
      connectToDatabaseWithRetry probe errOf N = .fatal (some (errOf N)) N (N - 1)) := by
  constructor
  · intro k h1 h2 hk hfail
    unfold connectToDatabaseWithRetry
    rw [dbRetryLoop_connected probe errOf N N 1 0 0 none k (by omega) h1 h2 hk hfail]
    congr 1 <;> omega
  · intro hN hfail
    unfold connectToDatabaseWithRetry
    rw [dbRetryLoop_fatal probe errOf N N 1 0 0 none (by omega) hN hfail]
    congr 1 <;> omega

/-- Witness for C1: with `maxRetries = 10`, success first on attempt 3 gives a
connected handle after 3 attempts and 2 waits; all attempts failing gives the
fatal outcome carrying attempt 10's error after 10 attempts and 9 waits. -/
theorem connectToDatabaseWithRetry_spec_witness :
    connectToDatabaseWithRetry (fun i => decide (i = 3)) (fun i => toString i) 10 =
      .connected 3 2 ∧
    connectToDatabaseWithRetry (fun _ => false) (fun i => toString i) 10 =
      .fatal (some (toString 10)) 10 9 := by
  constructor
  · exact (connectToDatabaseWithRetry_spec (fun i => decide (i = 3))
      (fun i => toString i) 10).1 3 (by decide) (by decide) (by decide)
      (fun i h1 h2 => by simp only [decide_eq_false_iff_not]; omega)
  · exact (connectToDatabaseWithRetry_spec (fun _ => false)
      (fun i => toString i) 10).2 (by decide) (fun i _ _ => rfl)

/-! ## Lemmas about the Redis retry loop and startup -/

/-- The Redis retry loop makes at most as many attempts as its iteration
budget. -/
lemma redisRetryLoop_attempts_le (probe : Nat → Bool) :
    ∀ (len a att : Nat), (redisRetryLoop probe len a att).attempts ≤ att + len := by
  intro len
  induction len with
  | zero =>
    intro a att
    simp [redisRetryLoop]
  | succ n ih =>
    intro a att
    cases h : probe a with
    | true =>
      simp [redisRetryLoop, h]
    | false =>
      simp only [redisRetryLoop, h, Bool.false_eq_true, if_false]
      have := ih (a + 1) (att + 1)
      omega

/-- C6: for every sequence of attempt outcomes, `connectToRedisWithRetry`
makes at most 3 attempts and returns either a connected client or `null`
(its result type has no error case: it never throws); and whenever the
required database acquisition succeeds, the startup sequence still reaches
the serving state with the listener open even when the cache result is
`null` (Absent). -/
theorem connectToRedisWithRetry_spec (redisProbe : Nat → Bool) :
    (connectToRedisWithRetry redisProbe).attempts ≤ 3 ∧
    ((connectToRedisWithRetry redisProbe).client = none ∨
      (connectToRedisWithRetry redisProbe).client = some ()) ∧
    (∀ (dbProbe : Nat → Bool) (errOf : Nat → String) (N a w : Nat),
      connectToDatabaseWithRetry dbProbe errOf N = .connected a w →
      (connectToRedisWithRetry redisProbe).client = none →
      (startServer dbProbe errOf N redisProbe).serving = true ∧
      (startServer dbProbe errOf N redisProbe).listenerOpened = true ∧
      (startServer dbProbe errOf N redisProbe).exitCode = none) := by
  refine ⟨?_, ?_, ?_⟩
  · exact redisRetryLoop_attempts_le redisProbe 3 1 0
  · cases h : (connectToRedisWithRetry redisProbe).client with
    | none => exact Or.inl rfl
    | some u => cases u; exact Or.inr rfl
  · intro dbProbe errOf N a w hdb _
    simp [startServer, hdb]

/-- Witness for C6: with every cache attempt failing and the database
reachable on attempt 1 of 1, the service serves with the listener open. -/
theorem connectToRedisWithRetry_spec_witness :
    (startServer (fun _ => true) (fun _ => "e") 1 (fun _ => false)).serving = true ∧
    (startServer (fun _ => true) (fun _ => "e") 1 (fun _ => false)).listenerOpened = true ∧
    (startServer (fun _ => true) (fun _ => "e") 1 (fun _ => false)).exitCode = none :=
  (connectToRedisWithRetry_spec (fun _ => false)).2.2 (fun _ => true) (fun _ => "e")
    1 1 0 (by decide) (by decide)

/-- C7: if the store is unreachable on all `N` attempts (`N ≥ 1`), the
startup sequence exits with code 1 and the listener is never opened; and in
every execution in which the listener did open, the required database
acquisition had succeeded. -/
theorem startup_listener_spec (dbProbe : Nat → Bool) (errOf : Nat → String)
    (N : Nat) (redisProbe : Nat → Bool) :
    (1 ≤ N → (∀ i, 1 ≤ i → i ≤ N → dbProbe i = false) →
      startServer dbProbe errOf N redisProbe =
        { exitCode := some 1, listenerOpened := false, serving := false
          redisConnected := false }) ∧
    ((startServer dbProbe errOf N redisProbe).listenerOpened = true →
      ∃ a w, connectToDatabaseWithRetry dbProbe errOf N = .connected a w) := by
  constructor
  · intro hN hfail
    have hdb := dbRetryLoop_fatal dbProbe errOf N N 1 0 0 none (by omega) hN hfail
    unfold startServer connectToDatabaseWithRetry
    rw [hdb]
  · intro hopen
    cases hdb : connectToDatabaseWithRetry dbProbe errOf N with
    | connected a w => exact ⟨a, w, rfl⟩
    | fatal e a w =>
      rw [startServer, hdb] at hopen
      exact Bool.noConfusion hopen

/-- Witness for C7: with 2 attempts both failing, startup exits 1 with no
listener; and the trivially-open case yields the connected acquisition. -/
theorem startup_listener_spec_witness :
    startServer (fun _ => false) (fun _ => "e") 2 (fun _ => true) =
      { exitCode := some 1, listenerOpened := false, serving := false
        redisConnected := false } ∧
    ∃ a w, connectToDatabaseWithRetry (fun _ => true) (fun _ => "e") 2 =
      DbAcq.connected a w := by
  constructor
  · exact (startup_listener_spec (fun _ => false) (fun _ => "e") 2 (fun _ => true)).1
      (by decide) (fun i _ _ => rfl)
  · exact (startup_listener_spec (fun _ => true) (fun _ => "e") 2 (fun _ => true)).2
      (by decide)

/-! ## Concrete fixture states -/

/-- A pool whose probe, users query and `end()` all succeed. -/
def poolFineConn : PoolConn :=
  { selectOne := .ok (), selectUsers := .ok ["alice", "bob"], failEnd := false }

/-- A pool whose `end()` rejects. -/
def poolEndRejects : PoolConn :=
  { selectOne := .ok (), selectUsers := .ok ["alice", "bob"], failEnd := true }

/-- A pool whose users query fails. -/
def poolUsersFailConn : PoolConn :=
  { selectOne := .ok (), selectUsers := .error "relation users does not exist"
    failEnd := false }

/-- An open Redis client with no stored entries and no injected failures. -/
def redisOpenEmpty : RedisState :=
  { isOpen := true, entries := [], failGet := false, getErr := ""
    failSet := false, setErr := "", failPing := false, pingErr := ""
    failQuit := false }

/-- A Redis client that was acquired but is no longer open. -/
def redisClosedConn : RedisState :=
  { redisOpenEmpty with isOpen := false }

/-! ## C2: shutdown ordering -/

/-- C2 counterexample: with both handles established and both releases
succeeding, the SIGTERM handler calls `pool.end()` (the Required store)
before `redisClient.quit()` (the Optional cache) — not cache first as
claimed; and when `pool.end()` rejects, the un-guarded `await` aborts the
handler, so `process.exit(0)` is never reached — the exit code is not 0
"regardless of whether either release call errors". -/
theorem sigterm_cache_first_counterexample :
    (sigtermHandler (some poolFineConn) (some redisOpenEmpty)).releases =
      [ReleaseOp.poolEnd, ReleaseOp.redisQuit] ∧
    (sigtermHandler (some poolFineConn) (some redisOpenEmpty)).releases ≠
      [ReleaseOp.redisQuit, ReleaseOp.poolEnd] ∧
    (sigtermHandler (some poolEndRejects) (some redisOpenEmpty)).exit ≠ some 0 := by
  decide

/-- C2 amended: on SIGTERM the handler releases the Required store handle
first (`pool.end()`, when the pool exists) and then the Optional cache
handle (`redisClient.quit()`, when the client exists and is open) — each at
most once, store before cache — and terminates with exit code 0 exactly when
no release call errors; an erroring release aborts the handler before the
`process.exit(0)` call. -/
theorem sigterm_spec (pool : Option PoolConn) (redisClient : Option RedisState) :
    (sigtermHandler pool redisClient).releases.Sublist
      [ReleaseOp.poolEnd, ReleaseOp.redisQuit] ∧
    ((sigtermHandler pool redisClient).exit = some 0 ↔
      ((∀ p, pool = some p → p.failEnd = false) ∧
       (∀ r, redisClient = some r → r.isOpen = true → r.failQuit = false))) := by
  rcases pool with _ | p <;> rcases redisClient with _ | r
  · simp [sigtermHandler]
  · cases hro : r.isOpen <;> cases hrq : r.failQuit <;>
      simp [sigtermHandler, hro, hrq]
  · cases hpe : p.failEnd <;> simp [sigtermHandler, hpe]
  · cases hpe : p.failEnd <;> cases hro : r.isOpen <;> cases hrq : r.failQuit <;>
      simp [sigtermHandler, hpe, hro, hrq]

/-- Witness for C2 (amended): with both handles established and healthy, the
releases are store-then-cache (a sublist of `[poolEnd, redisQuit]`) and the
exit code is 0. -/
theorem sigterm_spec_witness :
    (sigtermHandler (some poolFineConn) (some redisOpenEmpty)).releases.Sublist
      [ReleaseOp.poolEnd, ReleaseOp.redisQuit] ∧
    (sigtermHandler (some poolFineConn) (some redisOpenEmpty)).exit = some 0 :=
  ⟨(sigterm_spec (some poolFineConn) (some redisOpenEmpty)).1,
   (sigterm_spec (some poolFineConn) (some redisOpenEmpty)).2.mpr
     ⟨fun p hp => by cases hp; rfl, fun r hr _ => by cases hr; rfl⟩⟩

/-! ## C3: readiness verdict -/

/-- C3: the readiness verdict is `NOT_READY` with HTTP 503 if and only if
the pool was never established or its `SELECT 1` probe fails, and `READY`
with HTTP 200 exactly when the pool is established and the probe succeeds;
for a fixed pool state, the verdict, status code and recorded database
detail are all independent of the Redis handle's state — any two cache
states (connected, absent, erroring) give the same verdict. -/
theorem readiness_spec (pool : Option PoolConn) (r1 r2 : Option RedisState) :
    ((readyHandler pool r1).statusCode = 503 ↔
      (pool = none ∨ ∃ p e, pool = some p ∧ p.selectOne = Except.error e)) ∧
    ((readyHandler pool r1).statusCode = 200 ↔
      (∃ p, pool = some p ∧ p.selectOne = Except.ok ())) ∧
    ((readyHandler pool r1).status = "NOT_READY" ↔
      (readyHandler pool r1).statusCode = 503) ∧
    ((readyHandler pool r1).status = "READY" ↔
      (readyHandler pool r1).statusCode = 200) ∧
    (readyHandler pool r1).statusCode = (readyHandler pool r2).statusCode ∧
    (readyHandler pool r1).status = (readyHandler pool r2).status ∧
    (readyHandler pool r1).database = (readyHandler pool r2).database := by
  rcases pool with _ | p
  · simp [readyHandler]
  · rcases hp : p.selectOne with e | u
    · simp [readyHandler, hp]
    · cases u
      simp [readyHandler, hp]

/-- Witness for C3: a healthy pool yields 200/`READY` with an erroring cache
and with an absent cache alike. -/
theorem readiness_spec_witness :
    (readyHandler (some poolFineConn)
        (some { redisOpenEmpty with failPing := true, pingErr := "down" })).statusCode =
      (readyHandler (some poolFineConn) none).statusCode ∧
    ((readyHandler (some poolFineConn) none).statusCode = 200 ↔
      (∃ p, (some poolFineConn : Option PoolConn) = some p ∧
        p.selectOne = Except.ok ())) :=
  ⟨(readiness_spec (some poolFineConn)
      (some { redisOpenEmpty with failPing := true, pingErr := "down" }) none).2.2.2.2.1,
   (readiness_spec (some poolFineConn) none
      (some redisOpenEmpty)).2.1⟩

/-! ## C9: detailed health endpoint -/

/-- C9: `GET /api/health` answers 200 at the transport layer for every
combination of dependency states and probe outcomes; the body encodes the
database check (`connected` on probe success, `errorWith` its message on
probe failure, `notInitialized` when the pool is missing — the latter two
setting the overall body status to `Error`) and a failing cache ping is
caught and recorded as a structured `errorWith` field instead of
propagating. -/
theorem apiHealth_spec (pool : Option PoolConn) (redisClient : Option RedisState) :
    (apiHealthHandler pool redisClient).statusCode = 200 ∧
    (∀ p e, pool = some p → p.selectOne = Except.error e →
      (apiHealthHandler pool redisClient).database = .errorWith e ∧
      (apiHealthHandler pool redisClient).status = "Error") ∧
    (∀ p, pool = some p → p.selectOne = Except.ok () →
      (apiHealthHandler pool redisClient).database = .connected ∧
      (apiHealthHandler pool redisClient).status = "OK") ∧
    (pool = none →
      (apiHealthHandler pool redisClient).database = .notInitialized ∧
      (apiHealthHandler pool redisClient).status = "Error") ∧
    (∀ r, redisClient = some r → r.isOpen = true → r.failPing = true →
      (apiHealthHandler pool redisClient).redis = .errorWith r.pingErr) := by
  refine ⟨?_, ?_, ?_, ?_, ?_⟩
  · rcases pool with _ | p
    · simp [apiHealthHandler]
    · rcases hp : p.selectOne with e | u <;> simp [apiHealthHandler, hp]
  · rintro p e rfl hp
    simp [apiHealthHandler, hp]
  · rintro p rfl hp
    simp [apiHealthHandler, hp]
  · rintro rfl
    simp [apiHealthHandler]
  · rintro r rfl hro hrp
    simp [apiHealthHandler, hro, redisPing, hrp]

/-- Witness for C9: with the pool missing and an open cache whose ping
fails, the endpoint still answers 200 and records the ping error. -/
theorem apiHealth_spec_witness :
    (apiHealthHandler none
        (some { redisOpenEmpty with failPing := true, pingErr := "down" })).statusCode =
      200 ∧
    (apiHealthHandler none
        (some { redisOpenEmpty with failPing := true, pingErr := "down" })).redis =
      .errorWith "down" :=
  ⟨(apiHealth_spec none
      (some { redisOpenEmpty with failPing := true, pingErr := "down" })).1,
   (apiHealth_spec none
      (some { redisOpenEmpty with failPing := true, pingErr := "down" })).2.2.2.2
      { redisOpenEmpty with failPing := true, pingErr := "down" } rfl rfl rfl⟩

/-! ## C8: read-path status codes -/

/-- C8: `GET /api/users` answers 503 (with the availability message, without
querying the store) exactly when the pool was never established; it answers
500 with only the generic message exactly when the store was queried and the
users query failed; in every other case it answers 200 with a row-array
payload. -/
theorem getUsers_status_spec (pool : Option PoolConn)
    (redisClient : Option RedisState) (now : Nat) :
    ((getUsers pool redisClient now).status = 503 ↔ pool = none) ∧
    ((getUsers pool redisClient now).status = 503 →
      (getUsers pool redisClient now).body = .errorMsg "Database not available" ∧
      (getUsers pool redisClient now).storeQueried = false) ∧
    ((getUsers pool redisClient now).status = 500 ↔
      (∃ p e, pool = some p ∧ p.selectUsers = Except.error e ∧
        (getUsers pool redisClient now).storeQueried = true)) ∧
    ((getUsers pool redisClient now).status = 500 →
      (getUsers pool redisClient now).body = .errorMsg "Internal server error") ∧
    ((getUsers pool redisClient now).status ≠ 503 →
      (getUsers pool redisClient now).status ≠ 500 →
      (getUsers pool redisClient now).status = 200 ∧
      ∃ rs, (getUsers pool redisClient now).body = .rows rs) := by
  rcases pool with _ | p
  · simp [getUsers]
  · rcases hcr : cacheReadPhase redisClient "users:all" now with ⟨hv, ops⟩
    cases hv with
    | some v => simp [getUsers, hcr]
    | none =>
      rcases hu : p.selectUsers with e | rows <;>
        simp [getUsers, hcr, hu]

/-- Witness for C8: with no pool the endpoint answers 503 without touching
the store; with an established pool whose users query fails (and no cache)
the endpoint answers 500 with the generic message. -/
theorem getUsers_status_spec_witness :
    ((getUsers none none 0).status = 503 →
      (getUsers none none 0).body = .errorMsg "Database not available" ∧
      (getUsers none none 0).storeQueried = false) ∧
    ((getUsers (some poolUsersFailConn) none 0).status = 500 →
      (getUsers (some poolUsersFailConn) none 0).body =
        .errorMsg "Internal server error") ∧
    (getUsers none none 0).status = 503 ∧
    (getUsers (some poolUsersFailConn) none 0).status = 500 :=
  ⟨(getUsers_status_spec none none 0).2.1,
   (getUsers_status_spec (some poolUsersFailConn) none 0).2.2.2.1,
   (getUsers_status_spec none none 0).1.mpr rfl,
   (getUsers_status_spec (some poolUsersFailConn) none 0).2.2.1.mpr
     ⟨poolUsersFailConn, "relation users does not exist", rfl, rfl, by decide⟩⟩

/-! ## C4: cache failures are invisible to the caller -/

/-- C4: a failing cache `get` is treated exactly as a cache miss — the store
is queried and the response (status and body) is the one the handler
produces with no cache at all; a failing cache populate after a successful
store read leaves the response (status, body, store usage) unchanged
relative to a succeeding populate; and with the pool established the caller
only ever sees 200, or 500 caused by a store-query error — never an error
attributable to the cache. -/
theorem cacheFailure_transparent_spec :
    (∀ (p : PoolConn) (r : RedisState) (now : Nat),
      r.isOpen = true → r.failGet = true →
      ((getUsers (some p) (some r) now).storeQueried = true ∧
       (getUsers (some p) (some r) now).status = (getUsers (some p) none now).status ∧
       (getUsers (some p) (some r) now).body = (getUsers (some p) none now).body)) ∧
    (∀ (p : PoolConn) (r : RedisState) (now : Nat),
      ((getUsers (some p) (some { r with failSet := true }) now).status =
        (getUsers (some p) (some { r with failSet := false }) now).status ∧
       (getUsers (some p) (some { r with failSet := true }) now).body =
        (getUsers (some p) (some { r with failSet := false }) now).body ∧
       (getUsers (some p) (some { r with failSet := true }) now).storeQueried =
        (getUsers (some p) (some { r with failSet := false }) now).storeQueried)) ∧
    (∀ (p : PoolConn) (redisClient : Option RedisState) (now : Nat),
      (getUsers (some p) redisClient now).status = 200 ∨
      ((getUsers (some p) redisClient now).status = 500 ∧
        ∃ e, p.selectUsers = Except.error e)) := by
  refine ⟨?_, ?_, ?_⟩
  · intro p r now hro hrg
    rcases hu : p.selectUsers with e | rows <;>
      simp [getUsers, cacheReadPhase, cachePopulatePhase, redisGet, redisSetEx,
        hro, hrg, hu]
  · intro p r now
    cases hro : r.isOpen
    · rcases hu : p.selectUsers with e | rows <;>
        simp [getUsers, cacheReadPhase, cachePopulatePhase, hro, hu]
    · cases hrg : r.failGet
      · cases hl : redisLookup r.entries "users:all" now with
        | some v =>
          simp [getUsers, cacheReadPhase, redisGet, hro, hrg, hl]
        | none =>
          rcases hu : p.selectUsers with e | rows <;>
            simp [getUsers, cacheReadPhase, cachePopulatePhase, redisGet,
              redisSetEx, hro, hrg, hl, hu]
      · rcases hu : p.selectUsers with e | rows <;>
          simp [getUsers, cacheReadPhase, cachePopulatePhase, redisGet,
            redisSetEx, hro, hrg, hu]
  · intro p redisClient now
    rcases hcr : cacheReadPhase redisClient "users:all" now with ⟨hv, ops⟩
    cases hv with
    | some v => simp [getUsers, hcr]
    | none =>
      rcases hu : p.selectUsers with e | rows
      · exact Or.inr (by simp [getUsers, hcr, hu])
      · exact Or.inl (by simp [getUsers, hcr, hu])

/-- Witness for C4: with an open cache whose `get` throws, the request is
served from the store with status 200, matching the no-cache response. -/
theorem cacheFailure_transparent_spec_witness :
    (getUsers (some poolFineConn)
        (some { redisOpenEmpty with failGet := true, getErr := "conn reset" }) 0).storeQueried =
      true ∧
    (getUsers (some poolFineConn)
        (some { redisOpenEmpty with failGet := true, getErr := "conn reset" }) 0).status =
      (getUsers (some poolFineConn) none 0).status ∧
    (getUsers (some poolFineConn)
        (some { redisOpenEmpty with failGet := true, getErr := "conn reset" }) 0).body =
      (getUsers (some poolFineConn) none 0).body :=
  cacheFailure_transparent_spec.1 poolFineConn
    { redisOpenEmpty with failGet := true, getErr := "conn reset" } 0 rfl rfl

/-! ## C5: cache-aside hit and idempotence -/

/-- C5: when the cache is open, its `get` succeeds, and it holds an
unexpired entry for `users:all`, the handler returns the cached value with
status 200 and does not query the store; consequently, for two consecutive
reads of the same key with no intervening writes — the first a miss whose
store read and populate succeed, the second within the 300 s time-to-live —
the store is queried exactly once: on the first read, never on the second,
which is a cache hit returning the same rows. -/
theorem cacheAside_hit_spec :
    (∀ (p : PoolConn) (r : RedisState) (now : Nat) (v : List String),
      r.isOpen = true → r.failGet = false →
      redisLookup r.entries "users:all" now = some v →
      ((getUsers (some p) (some r) now).status = 200 ∧
       (getUsers (some p) (some r) now).body = .rows v ∧
       (getUsers (some p) (some r) now).storeQueried = false)) ∧
    (∀ (p : PoolConn) (r : RedisState) (t1 t2 : Nat) (rows : List String),
      r.isOpen = true → r.failGet = false → r.failSet = false →
      redisLookup r.entries "users:all" t1 = none →
      p.selectUsers = Except.ok rows →
      t2 < t1 + 300 →
      ((getUsers (some p) (some r) t1).storeQueried = true ∧
       (getUsers (some p) (some r) t1).status = 200 ∧
       (getUsers (some p) (some r) t1).body = .rows rows ∧
       (getUsers (some p) ((getUsers (some p) (some r) t1).redisAfter) t2).storeQueried =
         false ∧
       (getUsers (some p) ((getUsers (some p) (some r) t1).redisAfter) t2).status = 200 ∧
       (getUsers (some p) ((getUsers (some p) (some r) t1).redisAfter) t2).body =
         .rows rows)) := by
  constructor
  · intro p r now v hro hrg hl
    simp [getUsers, cacheReadPhase, redisGet, hro, hrg, hl]
  · intro p r t1 t2 rows hro hrg hrs hl hu ht
    have h1 : getUsers (some p) (some r) t1 =
        { status := 200, body := .rows rows, storeQueried := true
          cacheOps := [CacheOp.get, CacheOp.setEx]
          redisAfter :=
            some { r with entries := ("users:all", rows, t1 + 300) :: r.entries } } := by
      simp [getUsers, cacheReadPhase, cachePopulatePhase, redisGet, redisSetEx,
        hro, hrg, hrs, hl, hu]
    have h2 : redisLookup (("users:all", rows, t1 + 300) :: r.entries) "users:all" t2 =
        some rows := by
      simp [redisLookup, List.find?, ht]
    rw [h1]
    refine ⟨rfl, rfl, rfl, ?_, ?_, ?_⟩ <;>
      simp [getUsers, cacheReadPhase, redisGet, hro, hrg, h2]

/-- Witness for C5: starting from an empty open cache at time 0, the first
read queries the store and the second read at time 299 is a cache hit served
without a store query. -/
theorem cacheAside_hit_spec_witness :
    (getUsers (some poolFineConn) (some redisOpenEmpty) 0).storeQueried = true ∧
    (getUsers (some poolFineConn) (some redisOpenEmpty) 0).status = 200 ∧
    (getUsers (some poolFineConn) (some redisOpenEmpty) 0).body =
      .rows ["alice", "bob"] ∧
    (getUsers (some poolFineConn)
        ((getUsers (some poolFineConn) (some redisOpenEmpty) 0).redisAfter) 299).storeQueried =
      false ∧
    (getUsers (some poolFineConn)
        ((getUsers (some poolFineConn) (some redisOpenEmpty) 0).redisAfter) 299).status =
      200 ∧
    (getUsers (some poolFineConn)
        ((getUsers (some poolFineConn) (some redisOpenEmpty) 0).redisAfter) 299).body =
      .rows ["alice", "bob"] :=
  cacheAside_hit_spec.2 poolFineConn redisOpenEmpty 0 299 ["alice", "bob"]
    rfl rfl rfl (by decide) rfl (by decide)

/-! ## C10: a closed cache client is treated as absent everywhere -/

/-- C10: every consumer guards on `redisClient && redisClient.isOpen`, so a
client that is no longer open behaves exactly like an absent one: the read
path returns the same status, body and store usage as with no client,
issues no cache call, and leaves the client untouched; readiness and
detailed health return the very same response as with no client (recording
the cache as unavailable without pinging it); and shutdown behaves as with
no client, never calling `quit` on it. -/
theorem closedCacheClient_spec (r : RedisState) (hr : r.isOpen = false) :
    (∀ (pool : Option PoolConn) (now : Nat),
      ((getUsers pool (some r) now).status = (getUsers pool none now).status ∧
       (getUsers pool (some r) now).body = (getUsers pool none now).body ∧
       (getUsers pool (some r) now).storeQueried =
         (getUsers pool none now).storeQueried ∧
       (getUsers pool (some r) now).cacheOps = [] ∧
       (getUsers pool (some r) now).redisAfter = some r)) ∧
    (∀ pool : Option PoolConn,
      readyHandler pool (some r) = readyHandler pool none ∧
      (readyHandler pool (some r)).cacheOps = []) ∧
    (∀ pool : Option PoolConn,
      apiHealthHandler pool (some r) = apiHealthHandler pool none ∧
      (apiHealthHandler pool (some r)).cacheOps = []) ∧
    (∀ pool : Option PoolConn,
      sigtermHandler pool (some r) = sigtermHandler pool none ∧
      ReleaseOp.redisQuit ∉ (sigtermHandler pool (some r)).releases) := by
  refine ⟨?_, ?_, ?_, ?_⟩
  · intro pool now
    rcases pool with _ | p
    · simp [getUsers]
    · rcases hu : p.selectUsers with e | rows <;>
        simp [getUsers, cacheReadPhase, cachePopulatePhase, hr, hu]
  · intro pool
    rcases pool with _ | p
    · simp [readyHandler, hr]
    · rcases hp : p.selectOne with e | u <;> simp [readyHandler, hr, hp]
  · intro pool
    rcases pool with _ | p
    · simp [apiHealthHandler, hr]
    · rcases hp : p.selectOne with e | u <;> simp [apiHealthHandler, hr, hp]
  · intro pool
    rcases pool with _ | p
    · simp [sigtermHandler, hr]
    · cases hpe : p.failEnd <;> simp [sigtermHandler, hr, hpe]

/-- Witness for C10: with an established pool and the closed client, the
read path matches the no-cache response with no cache calls, readiness is
identical to the no-cache response, and shutdown never calls `quit`. -/
theorem closedCacheClient_spec_witness :
    (getUsers (some poolFineConn) (some redisClosedConn) 0).status =
      (getUsers (some poolFineConn) none 0).status ∧
    (getUsers (some poolFineConn) (some redisClosedConn) 0).cacheOps = [] ∧
    readyHandler (some poolFineConn) (some redisClosedConn) =
      readyHandler (some poolFineConn) none ∧
    apiHealthHandler (some poolFineConn) (some redisClosedConn) =
      apiHealthHandler (some poolFineConn) none ∧
    ReleaseOp.redisQuit ∉
      (sigtermHandler (some poolFineConn) (some redisClosedConn)).releases :=
  ⟨((closedCacheClient_spec redisClosedConn rfl).1 (some poolFineConn) 0).1,
   ((closedCacheClient_spec redisClosedConn rfl).1 (some poolFineConn) 0).2.2.2.1,
   ((closedCacheClient_spec redisClosedConn rfl).2.1 (some poolFineConn)).1,
   ((closedCacheClient_spec redisClosedConn rfl).2.2.1 (some poolFineConn)).1,
   ((closedCacheClient_spec redisClosedConn rfl).2.2.2 (some poolFineConn)).2⟩
